import Mathlib

/-!
Shallow embedding of `src/cloud/openstack/os_keystone_endpoint.py`, the
single Ansible module of this repository.  The module reconciles an
OpenStack identity (keystone) API endpoint against a desired declarative
state.  The external collaborators (the shade cloud SDK and the
AnsibleModule framework) are modelled as explicit parameters: the
directory lookups `search_services` / `search_endpoints` become list and
function arguments, and the mutation calls (`create_endpoint`,
`update_endpoint`, `delete_endpoint`) are recorded in an observable call
trace instead of being performed.
-/

namespace OsKeystoneEndpoint

/-- Python truthiness of an optional string parameter: `None` and the empty
string are falsy, every other string is truthy (models `if url:` and
`if interface:` in the source). -/
def pyTruthy : Option String → Bool
  | none => false
  | some s => !(s == "")

/-- A service entry as returned by `cloud.search_services`; only its `id`
attribute is read by the module (line `service_id = services_list[0].id`). -/
structure Service where
  id : String
deriving DecidableEq, Repr

/-- A remote endpoint snapshot as returned by `cloud.search_endpoints`.
`id`, `enabled` and `url` are accessed directly by the module; `region`,
`internalurl`, `adminurl` and `publicurl` are accessed through `hasattr`
guards, so they are modelled as `Option (Option String)`: the outer `none`
means the attribute is entirely absent from the remote object, the inner
`Option String` is the Python attribute value (which may itself be `None`). -/
structure Endpoint where
  id : String
  enabled : Bool
  url : Option String
  region : Option (Option String)
  internalurl : Option (Option String)
  adminurl : Option (Option String)
  publicurl : Option (Option String)
deriving DecidableEq, Repr

/-- The module parameters as delivered by the AnsibleModule framework.
None of the declared arguments carries a `type`, so the framework coerces
every supplied value to `str`; optional arguments not supplied and without
a default are delivered as `None` (modelled `none`).  `enabled` always
reaches the module as a string because its declared default `True` is also
coerced to `"True"` by the framework before the module body runs. -/
structure Params where
  service_name : String
  service_type : String
  interface : Option String
  url : Option String
  admin_url : Option String
  public_url : Option String
  internal_url : Option String
  region : Option String
  enabled : String
  state : String
deriving DecidableEq, Repr

/-- The string the AnsibleModule framework delivers for `enabled` when the
caller does not supply it: the argument spec declares
`enabled=dict(default=True, required=False)` with no `type`, the framework
fills the default `True` into `module.params` and then coerces the untyped
value to `str`, yielding `"True"`. -/
def enabledDefault : String := "True"

/-- Line 225 of the source: `enabled = "True" == module.params.get('enabled', True)`.
The parameter value is a string (see `Params`), so the comparison is a
string equality test against `"True"`. -/
def effective_enabled (p : Params) : Bool := p.enabled == "True"

/-- The filter dictionary passed to `cloud.search_endpoints`: always the
`service_id` key, plus the `interface` key when present (`interface = none`
models a filter dictionary without the `interface` key). -/
structure EpFilter where
  service_id : String
  interface : Option String
deriving DecidableEq, Repr

/-- The filter `get_endpoint` builds: `{'service_id': service, 'interface': interface}`
when `interface` is truthy, `{'service_id': service}` otherwise. -/
def endpointQuery (service : String) (interface : Option String) : EpFilter :=
  if pyTruthy interface then ⟨service, interface⟩ else ⟨service, none⟩

/-- The `get_endpoint` helper of the source (lines 160-176): query the
directory, fail when more than one endpoint matches, return the unique
match or `None`.  `search` models `cloud.search_endpoints`. -/
def get_endpoint (search : EpFilter → List Endpoint) (service : String)
    (interface : Option String) : Except String (Option Endpoint) :=
  let endpoints_list := search (endpointQuery service interface)
  if endpoints_list.length > 1 then
    .error ("Multiple endpoint entries exist service " ++ service ++ ".")
  else
    .ok (if endpoints_list.length == 1 then endpoints_list.head? else none)

/-- Service resolution (lines 231-238 of the source): fail unless exactly
one service matches the name/type filter, otherwise take
`services_list[0].id`. -/
def resolveService (service_name : String) (services_list : List Service) :
    Except String String :=
  match services_list with
  | [s] => .ok s.id
  | _ =>
    .error ("Service " ++ service_name ++
      " not found or more than 1 service have this name")

/-- The `hasattr`-guarded comparison pattern used for `region`,
`internalurl`, `adminurl` and `publicurl`:
`hasattr(cur, a) and getattr(cur, a) != want or not hasattr(cur, a) and want is not None`
(Python `and` binds tighter than `or`). -/
def attrDiffers (attr : Option (Option String)) (want : Option String) : Bool :=
  match attr with
  | some v => !(v == want)
  | none => want.isSome

/-- The "Check if changes" block of `main` (lines 246-276): `changed` is
true when no current endpoint exists, and otherwise is the disjunction of
the enabled comparison (only under a truthy `url`; the `enabled is not None`
guard of the source is vacuous because `enabled` is always a `bool` there),
the unconditional region comparison, and either the `url` comparison (v3)
or the three legacy URL comparisons (v2). -/
def computeChanged (p : Params) (current_endpoint : Option Endpoint) : Bool :=
  match current_endpoint with
  | none => true
  | some c =>
    let enabled := effective_enabled p
    let changedEnabled := pyTruthy p.url && !(c.enabled == enabled)
    let changedRegion := attrDiffers c.region p.region
    let changedUrls :=
      if pyTruthy p.url then !(c.url == p.url)
      else
        attrDiffers c.internalurl p.internal_url ||
        attrDiffers c.adminurl p.admin_url ||
        attrDiffers c.publicurl p.public_url
    changedEnabled || changedRegion || changedUrls

/-- A mutation issued against the cloud, in the order the source passes the
arguments: `create_endpoint(service_id, interface=, url=, region=, enabled=,
public_url=, internal_url=, admin_url=)`,
`update_endpoint(endpoint_id, url=, interface=, region=)`,
`delete_endpoint(endpoint_id)`. -/
inductive Call where
  | create_endpoint (service_id : String) (interface : Option String)
      (url : Option String) (region : Option String) (enabled : Bool)
      (public_url : Option String) (internal_url : Option String)
      (admin_url : Option String)
  | update_endpoint (endpoint_id : String) (url : Option String)
      (interface : Option String) (region : Option String)
  | delete_endpoint (endpoint_id : String)
deriving DecidableEq, Repr

/-- Result of one invocation: `failed` models `module.fail_json(msg=...)`,
`exited` models `module.exit_json(changed=...)` together with the list of
mutation calls issued before exiting, and `crashed` models an uncaught
Python exception (reachable in the source only through
`current_endpoint.id` on `None`, a state the control flow never produces). -/
inductive Outcome where
  | failed (msg : String)
  | exited (changed : Bool) (calls : List Call)
  | crashed
deriving DecidableEq, Repr

/-- The body of `main` after parameter extraction (lines 228 onward):
resolve the service, fetch the current endpoint, short-circuit
absent-on-absent, compute `changed`, handle check mode, then apply the
mutation branch and exit.  `services_list` is the result of
`cloud.search_services(filters={'name': ..., 'type': ...})`, `search`
models `cloud.search_endpoints`, and `check_mode` is `module.check_mode`. -/
def runMain (p : Params) (services_list : List Service)
    (search : EpFilter → List Endpoint) (check_mode : Bool) : Outcome :=
  match resolveService p.service_name services_list with
  | .error msg => .failed msg
  | .ok service_id =>
    match get_endpoint search service_id p.interface with
    | .error msg => .failed msg
    | .ok current_endpoint =>
      if current_endpoint.isNone && p.state == "absent" then
        .exited false []
      else
        let changed := computeChanged p current_endpoint
        if check_mode then
          .exited (if changed && p.state == "absent" then false else changed) []
        else
          if changed then
            if p.state == "present" then
              match current_endpoint with
              | none =>
                .exited true
                  [.create_endpoint service_id p.interface p.url p.region
                    (effective_enabled p) p.public_url p.internal_url p.admin_url]
              | some c =>
                if pyTruthy p.url then
                  .exited true [.update_endpoint c.id p.url p.interface p.region]
                else
                  .exited true
                    [.delete_endpoint c.id,
                     .create_endpoint service_id p.interface p.url p.region
                       (effective_enabled p) p.public_url p.internal_url p.admin_url]
            else
              .exited false []
          else
            if p.state == "absent" then
              match current_endpoint with
              | some c => .exited true [.delete_endpoint c.id]
              | none => .crashed
            else
              .exited false []

/-! Concrete fixtures used by the scenario theorems. -/

/-- Scenario A remote state: one v3 endpoint for the resolved service with
interface internal, url `http://server:5000/v3`, region `myregion`,
enabled true. -/
def scenarioAEndpoint : Endpoint :=
  { id := "e1", enabled := true, url := some "http://server:5000/v3",
    region := some (some "myregion"), internalurl := none,
    adminurl := none, publicurl := none }

/-- Scenario A desired state: identical to `scenarioAEndpoint`,
state present. -/
def scenarioAParams : Params :=
  { service_name := "keystone", service_type := "identity",
    interface := some "internal", url := some "http://server:5000/v3",
    admin_url := none, public_url := none, internal_url := none,
    region := some "myregion", enabled := "True", state := "present" }

/-- Scenario A directory: the interface-filtered query for service `svc1`
returns the single endpoint. -/
def scenarioASearch : EpFilter → List Endpoint := fun f =>
  if f == { service_id := "svc1", interface := some "internal" }
  then [scenarioAEndpoint] else []

/-- A state=absent invocation whose desired url differs from the existing
endpoint's url. -/
def absentDriftParams : Params :=
  { service_name := "keystone", service_type := "identity",
    interface := some "internal", url := some "http://other:5000/v3",
    admin_url := none, public_url := none, internal_url := none,
    region := some "myregion", enabled := "True", state := "absent" }

/-- The existing endpoint for the absent-with-drift invocation: its url is
`http://server:5000/v3`, different from the desired url. -/
def absentDriftEndpoint : Endpoint :=
  { id := "e2", enabled := true, url := some "http://server:5000/v3",
    region := some (some "myregion"), internalurl := none,
    adminurl := none, publicurl := none }

/-- Directory for the absent-with-drift invocation. -/
def absentDriftSearch : EpFilter → List Endpoint := fun f =>
  if f == { service_id := "svc1", interface := some "internal" }
  then [absentDriftEndpoint] else []

/-! Theorems settling the claims. -/

/-- C1: for an invocation where one v3 endpoint exists for the resolved
service with interface internal, url `http://server:5000/v3`, region
myregion, enabled true, and the desired values are identical
(state present), the computed `changed` is false and the invocation
reports changed=false with no mutation call. -/
theorem C1_scenarioA_no_change :
    computeChanged scenarioAParams (some scenarioAEndpoint) = false ∧
    runMain scenarioAParams [⟨"svc1"⟩] scenarioASearch false =
      .exited false [] := by
  constructor <;> rfl

/-- C2 counterexample: an invocation with state=absent whose current
endpoint exists (returned by the endpoint lookup) on which the structural
comparison computes changed=true — the desired url differs from the
current one, so `changed` under absent+existing current is not always
false and the `changed && absent` branch is not dead code. -/
theorem C2_absent_changed_counterexample :
    absentDriftParams.state = "absent" ∧
    get_endpoint absentDriftSearch "svc1" absentDriftParams.interface =
      .ok (some absentDriftEndpoint) ∧
    computeChanged absentDriftParams (some absentDriftEndpoint) = true := by
  refine ⟨rfl, rfl, rfl⟩

/-- C2 amended: the `changed && absent` branch is reachable (see the
counterexample), and whenever it is taken — state=absent, an existing
current endpoint, and the structural comparison computing changed=true —
the invocation performs no mutation call and reports changed=false. -/
theorem C2_absent_changed_no_mutation (p : Params) (sv : List Service)
    (search : EpFilter → List Endpoint) (sid : String) (c : Endpoint)
    (hres : resolveService p.service_name sv = .ok sid)
    (hget : get_endpoint search sid p.interface = .ok (some c))
    (hstate : p.state = "absent")
    (hch : computeChanged p (some c) = true) :
    runMain p sv search false = .exited false [] := by
  simp only [runMain, hres, hget, hstate, hch]
  rfl

/-- C2 amended, witness: the concrete absent-with-drift invocation exits
with changed=false and an empty call trace. -/
theorem C2_absent_changed_no_mutation_witness :
    runMain absentDriftParams [⟨"svc1"⟩] absentDriftSearch false =
      .exited false [] :=
  C2_absent_changed_no_mutation absentDriftParams [⟨"svc1"⟩] absentDriftSearch
    "svc1" absentDriftEndpoint rfl rfl rfl rfl

/-- C3: when the `enabled` input is not supplied the framework delivers the
default `"True"`, so the effective enabled flag — the value compared against
the remote endpoint and passed to `create_endpoint` — is true; in
particular a creating run issues `create_endpoint` with `enabled = true`. -/
theorem C3_enabled_default_true (p : Params) (sv : List Service)
    (search : EpFilter → List Endpoint) (sid : String)
    (hdef : p.enabled = enabledDefault)
    (hres : resolveService p.service_name sv = .ok sid)
    (hget : get_endpoint search sid p.interface = .ok none)
    (hstate : p.state = "present") :
    effective_enabled p = true ∧
    runMain p sv search false =
      .exited true
        [.create_endpoint sid p.interface p.url p.region true
          p.public_url p.internal_url p.admin_url] := by
  have he : effective_enabled p = true := by
    rw [effective_enabled, hdef]; rfl
  refine ⟨he, ?_⟩
  simp only [runMain, hres, hget, hstate, he]
  rfl

/-- Fixture for the C3 witness: an invocation leaving `enabled` at its
framework-supplied default, targeting a service with no endpoint yet. -/
def c3Params : Params :=
  { service_name := "keystone", service_type := "identity",
    interface := some "public", url := some "http://server:5000",
    admin_url := none, public_url := none, internal_url := none,
    region := some "myregion", enabled := enabledDefault, state := "present" }

/-- C3 witness: the concrete default-enabled invocation computes an
effective enabled flag of true and creates the endpoint with
`enabled = true`. -/
theorem C3_enabled_default_true_witness :
    effective_enabled c3Params = true ∧
    runMain c3Params [⟨"svc1"⟩] (fun _ => []) false =
      .exited true
        [.create_endpoint "svc1" (some "public") (some "http://server:5000")
          (some "myregion") true none none none] :=
  C3_enabled_default_true c3Params [⟨"svc1"⟩] (fun _ => []) "svc1"
    rfl rfl rfl rfl

/-- C4: in check mode no mutation call is ever issued — the outcome always
carries an empty call trace — and the reported changed equals the computed
changed except when state=absent and the computed changed is true, in which
case it is forced to false.  (The absent-on-absent short-circuit reports
changed=false, which coincides with the forced-false rule because a missing
current endpoint makes the computed changed true.) -/
theorem C4_check_mode_no_mutation (p : Params) (sv : List Service)
    (search : EpFilter → List Endpoint) (sid : String) (cur : Option Endpoint)
    (hres : resolveService p.service_name sv = .ok sid)
    (hget : get_endpoint search sid p.interface = .ok cur) :
    runMain p sv search true =
      .exited
        (if computeChanged p cur && p.state == "absent" then false
         else computeChanged p cur) [] := by
  simp only [runMain, hres, hget]
  cases cur with
  | some c => rfl
  | none =>
    cases hb : p.state == "absent" with
    | true => simp [hb, computeChanged]
    | false => simp [hb, computeChanged]

/-- C4 witness: the concrete absent-with-drift invocation under check mode
issues no call and reports changed=false (computed changed is true and
state is absent, so the forced-false rule applies). -/
theorem C4_check_mode_no_mutation_witness :
    runMain absentDriftParams [⟨"svc1"⟩] absentDriftSearch true =
      .exited false [] :=
  C4_check_mode_no_mutation absentDriftParams [⟨"svc1"⟩] absentDriftSearch
    "svc1" (some absentDriftEndpoint) rfl rfl

/-- C5: with the v2 schema (desired url unset), state=present, an existing
current endpoint and a differing admin url, the invocation issues exactly
one `delete_endpoint` on the current endpoint's id followed by exactly one
`create_endpoint`, and never an `update_endpoint`. -/
theorem C5_v2_delete_recreate (p : Params) (sv : List Service)
    (search : EpFilter → List Endpoint) (sid : String) (c : Endpoint)
    (hres : resolveService p.service_name sv = .ok sid)
    (hget : get_endpoint search sid p.interface = .ok (some c))
    (hstate : p.state = "present")
    (hurl : p.url = none)
    (hdiff : attrDiffers c.adminurl p.admin_url = true) :
    runMain p sv search false =
      .exited true
        [.delete_endpoint c.id,
         .create_endpoint sid p.interface p.url p.region (effective_enabled p)
           p.public_url p.internal_url p.admin_url] := by
  have hch : computeChanged p (some c) = true := by
    simp [computeChanged, hurl, pyTruthy, hdiff]
  simp only [runMain, hres, hget, hstate, hch, hurl]
  rfl

/-- Fixture for the C5 witness: a v2 invocation whose desired admin url
differs from the remote one. -/
def c5Params : Params :=
  { service_name := "keystone", service_type := "identity",
    interface := none, url := none,
    admin_url := some "http://server:35357/v2.0",
    public_url := some "http://server:5000/v2.0",
    internal_url := some "http://server:5000/v2.0",
    region := some "myregion", enabled := "True", state := "present" }

/-- Remote endpoint for the C5 witness: same public/internal urls and
region, but a different admin url. -/
def c5Endpoint : Endpoint :=
  { id := "e5", enabled := true, url := none,
    region := some (some "myregion"),
    internalurl := some (some "http://server:5000/v2.0"),
    adminurl := some (some "http://old:35357/v2.0"),
    publicurl := some (some "http://server:5000/v2.0") }

/-- Directory for the C5 witness: the interface-less query returns the
single v2 endpoint. -/
def c5Search : EpFilter → List Endpoint := fun f =>
  if f == { service_id := "svc1", interface := none }
  then [c5Endpoint] else []

/-- C5 witness: the concrete v2 invocation with a drifted admin url issues
exactly the delete-then-create trace. -/
theorem C5_v2_delete_recreate_witness :
    runMain c5Params [⟨"svc1"⟩] c5Search false =
      .exited true
        [.delete_endpoint "e5",
         .create_endpoint "svc1" none none (some "myregion") true
           (some "http://server:5000/v2.0") (some "http://server:5000/v2.0")
           (some "http://server:35357/v2.0")] :=
  C5_v2_delete_recreate c5Params [⟨"svc1"⟩] c5Search "svc1" c5Endpoint
    rfl rfl rfl rfl rfl

/-- C6: with the v3 schema (desired url set and non-empty), state=present,
an existing current endpoint on which only the region differs (enabled and
url agree), the invocation issues exactly one `update_endpoint` carrying
the desired url, interface and new region, and no delete or create. -/
theorem C6_v3_region_update (p : Params) (sv : List Service)
    (search : EpFilter → List Endpoint) (sid : String) (c : Endpoint)
    (u : String)
    (hres : resolveService p.service_name sv = .ok sid)
    (hget : get_endpoint search sid p.interface = .ok (some c))
    (hstate : p.state = "present")
    (hurl : p.url = some u) (hu : ¬ (u = ""))
    (_hen : c.enabled = effective_enabled p)
    (_hcu : c.url = p.url)
    (hreg : attrDiffers c.region p.region = true) :
    runMain p sv search false =
      .exited true [.update_endpoint c.id p.url p.interface p.region] := by
  have htr : pyTruthy p.url = true := by
    rw [hurl]; simp [pyTruthy, hu]
  have hch : computeChanged p (some c) = true := by
    simp [computeChanged, htr, hreg]
  simp only [runMain, hres, hget, hstate, hch, htr]
  rfl

/-- Fixture for the C6 witness: Scenario A desired state but with a new
region. -/
def c6Params : Params :=
  { service_name := "keystone", service_type := "identity",
    interface := some "internal", url := some "http://server:5000/v3",
    admin_url := none, public_url := none, internal_url := none,
    region := some "newregion", enabled := "True", state := "present" }

/-- Directory for the C6 witness: the interface-filtered query returns the
Scenario A endpoint (whose region is still `myregion`). -/
def c6Search : EpFilter → List Endpoint := fun f =>
  if f == { service_id := "svc1", interface := some "internal" }
  then [scenarioAEndpoint] else []

/-- C6 witness: the concrete region-only drift issues exactly one update
carrying the url, interface and new region. -/
theorem C6_v3_region_update_witness :
    runMain c6Params [⟨"svc1"⟩] c6Search false =
      .exited true
        [.update_endpoint "e1" (some "http://server:5000/v3")
          (some "internal") (some "newregion")] :=
  C6_v3_region_update c6Params [⟨"svc1"⟩] c6Search "svc1" scenarioAEndpoint
    "http://server:5000/v3" rfl rfl rfl rfl (by decide) rfl rfl rfl

/-- C7: when the endpoint lookup returns no endpoint and state=absent, the
invocation exits with changed=false and issues no mutation call, in any
check mode — the short-circuit fires before the diff computation. -/
theorem C7_absent_on_absent (p : Params) (sv : List Service)
    (search : EpFilter → List Endpoint) (sid : String) (cm : Bool)
    (hres : resolveService p.service_name sv = .ok sid)
    (hget : get_endpoint search sid p.interface = .ok none)
    (hstate : p.state = "absent") :
    runMain p sv search cm = .exited false [] := by
  simp only [runMain, hres, hget, hstate]
  rfl

/-- Fixture for the C7 witness: a state=absent invocation against a
service with no endpoints. -/
def c7Params : Params :=
  { service_name := "keystone", service_type := "identity",
    interface := some "internal", url := some "http://server:5000/v3",
    admin_url := none, public_url := none, internal_url := none,
    region := some "myregion", enabled := "True", state := "absent" }

/-- C7 witness: the concrete absent-on-absent invocation reports
changed=false with an empty call trace. -/
theorem C7_absent_on_absent_witness :
    runMain c7Params [⟨"svc1"⟩] (fun _ => []) false = .exited false [] :=
  C7_absent_on_absent c7Params [⟨"svc1"⟩] (fun _ => []) "svc1" false
    rfl rfl rfl

/-- C8: service resolution fails whenever the number of matching services
is not exactly one — covering zero matches and multiple matches — and on a
unique match resolves to that service's id. -/
theorem C8_service_resolution (service_name : String)
    (services : List Service) :
    (services.length ≠ 1 →
      resolveService service_name services =
        .error ("Service " ++ service_name ++
          " not found or more than 1 service have this name")) ∧
    (∀ s, services = [s] →
      resolveService service_name services = .ok s.id) := by
  constructor
  · intro h
    match services with
    | [] => rfl
    | [s] => simp at h
    | a :: b :: t => rfl
  · rintro s rfl
    rfl

/-- C8 witness: with zero matches resolution fails, and with the unique
match `svc1` it resolves to `"svc1"`. -/
theorem C8_service_resolution_witness :
    resolveService "keystone" [] =
      .error
        "Service keystone not found or more than 1 service have this name" ∧
    resolveService "keystone" [⟨"svc1"⟩] = .ok "svc1" :=
  ⟨(C8_service_resolution "keystone" []).1 (by decide),
   (C8_service_resolution "keystone" [⟨"svc1"⟩]).2 ⟨"svc1"⟩ rfl⟩

/-- C9: the endpoint lookup queries the directory with the interface
filter exactly when the interface input is set (the built filter carries
the given optional interface unchanged), fails the invocation when more
than one endpoint matches, and returns `none` without failing when zero
endpoints match. -/
theorem C9_endpoint_lookup (search : EpFilter → List Endpoint)
    (sid : String) (iface : Option String)
    (hne : ∀ s, iface = some s → ¬ (s = "")) :
    endpointQuery sid iface = ⟨sid, iface⟩ ∧
    ((search (endpointQuery sid iface)).length > 1 →
      get_endpoint search sid iface =
        .error ("Multiple endpoint entries exist service " ++ sid ++ ".")) ∧
    (search (endpointQuery sid iface) = [] →
      get_endpoint search sid iface = .ok none) := by
  have hq : endpointQuery sid iface = ⟨sid, iface⟩ := by
    cases iface with
    | none => rfl
    | some s =>
      have hs : ¬ (s = "") := hne s rfl
      simp [endpointQuery, pyTruthy, hs]
  refine ⟨hq, ?_, ?_⟩
  · intro h
    simp only [get_endpoint]
    rw [if_pos h]
  · intro h
    simp [get_endpoint, h]

/-- Directory for the C9 witness: the interface-filtered query for `svc1`
returns two endpoints. -/
def c9Search : EpFilter → List Endpoint := fun f =>
  if f == { service_id := "svc1", interface := some "internal" }
  then [⟨"e9a", true, some "http://a:5000", some (some "myregion"),
          none, none, none⟩,
        ⟨"e9b", true, some "http://b:5000", some (some "myregion"),
          none, none, none⟩]
  else []

/-- C9 witness: with a set interface the built filter carries it, and the
two-match directory makes the lookup fail with the multiple-endpoints
message. -/
theorem C9_endpoint_lookup_witness :
    endpointQuery "svc1" (some "internal") = ⟨"svc1", some "internal"⟩ ∧
    get_endpoint c9Search "svc1" (some "internal") =
      .error "Multiple endpoint entries exist service svc1." :=
  ⟨(C9_endpoint_lookup c9Search "svc1" (some "internal")
      (fun s hs => by cases hs; decide)).1,
   (C9_endpoint_lookup c9Search "svc1" (some "internal")
      (fun s hs => by cases hs; decide)).2.1 (by decide)⟩

/-- C10: under the v2 schema (desired url unset) with an existing current
endpoint, a region mismatch — the remote object has a region attribute
whose value differs from the desired region, or lacks the attribute while
the desired region is non-null — makes the computed changed true: the
region comparison applies in both schemas. -/
theorem C10_region_mismatch_v2 (p : Params) (c : Endpoint)
    (_hurl : p.url = none)
    (hmis : (∃ v, c.region = some v ∧ ¬ (v = p.region)) ∨
            (c.region = none ∧ ¬ (p.region = none))) :
    computeChanged p (some c) = true := by
  have hreg : attrDiffers c.region p.region = true := by
    rcases hmis with ⟨v, hv, hne⟩ | ⟨hnone, hsome⟩
    · rw [hv]; simp [attrDiffers, hne]
    · rw [hnone]
      simp [attrDiffers, Option.isSome_iff_ne_none, hsome]
  simp [computeChanged, hreg]

/-- Fixture for the C10 witness: a v2 invocation whose desired region
differs from the remote one while the three legacy urls agree. -/
def c10Params : Params :=
  { service_name := "keystone", service_type := "identity",
    interface := none, url := none,
    admin_url := some "http://server:35357/v2.0",
    public_url := some "http://server:5000/v2.0",
    internal_url := some "http://server:5000/v2.0",
    region := some "newregion", enabled := "True", state := "present" }

/-- Remote endpoint for the C10 witness: a v2-shaped object whose region
is still `myregion`. -/
def c10Endpoint : Endpoint :=
  { id := "e10", enabled := true, url := none,
    region := some (some "myregion"),
    internalurl := some (some "http://server:5000/v2.0"),
    adminurl := some (some "http://server:35357/v2.0"),
    publicurl := some (some "http://server:5000/v2.0") }

/-- C10 witness: the concrete v2 region-only mismatch computes
changed=true. -/
theorem C10_region_mismatch_v2_witness :
    computeChanged c10Params (some c10Endpoint) = true :=
  C10_region_mismatch_v2 c10Params c10Endpoint rfl
    (Or.inl ⟨some "myregion", rfl, by decide⟩)

end OsKeystoneEndpoint
